import Mathlib

/-
Verification of the weborca-test diagnostic scripts.

The Python sources are shallowly embedded here:
  * connection_troubleshoot.py : SSL-mode connection diagnosis
    (test_connection_with_ssl_modes, generate_pg_hba_entries, main).
  * test_orca_odbc.py : patient listing / search / todays visits
    (list_patients, search_patients, show_todays_visits, __main__).
  * check_today_visits.py : the same time formatting expression (line 41).

The external database and ODBC driver are modelled as oracles: a connection
attempt is a function from the SSL mode (and credential set) to an outcome,
which is either a success carrying the server version string, a driver-level
error (pyodbc.Error) or a generic error (any other Exception).  Console
output is modelled as the list of strings passed to print, in order; only
the portions of the output that the verified properties talk about are
rendered.  Python string slicing s[a:b] on text is character based, exactly
like String.take / String.drop here.
-/

namespace WebOrca

/-- Python expression `s or d` for an optional string value `s`:
None and the empty string are falsy and give `d`, any other string gives
itself. -/
def pyOr (s : Option String) (d : String) : String :=
  match s with
  | none => d
  | some v => if v = "" then d else v

/-- A run of `n` spaces, used by Python format-spec padding. -/
def spaces (n : Nat) : String :=
  String.mk (List.replicate n ' ')

/-- Python format spec `{x:^w}`: center in width `w`; the extra pad char of
an odd margin goes to the right (CPython format, not str.center). -/
def pyCenter (s : String) (w : Nat) : String :=
  spaces ((w - s.length) / 2) ++ s ++ spaces (w - s.length - (w - s.length) / 2)

/-- Python format spec `{x:>w}`: right align in width `w`. -/
def pyRight (s : String) (w : Nat) : String :=
  spaces (w - s.length) ++ s

/-- Python format spec `{x:<12}`: left align in width 12, as used by
generate_pg_hba_entries. -/
def pad12 (s : String) : String :=
  s ++ spaces (12 - s.length)

/-- SQL SUBSTRING(s, start, len): 1-indexed substring of length `len`. -/
def sqlSubstring (s : String) (start len : Nat) : String :=
  (s.drop (start - 1)).take len

/-! ## connection_troubleshoot.py -/

/-- Outcome of one connection attempt (connect + trivial query) against the
external server: success with the server version, a pyodbc.Error, or a
generic (non-driver) exception. -/
inductive AttemptOutcome where
  | success (version : String)
  | driverError (msg : String)
  | genericError (msg : String)
  deriving DecidableEq

/-- Return value of test_connection_with_ssl_modes:
either the dict with success True, ssl_mode and version
(connection_troubleshoot.py lines 51-55) or the dict with success False
(line 75). -/
inductive TestResult where
  | connected (ssl_mode version : String)
  | failed
  deriving DecidableEq

/-- How a routine call ends: a normal return, or an uncaught exception
propagating out of the routine. -/
inductive RunOutcome where
  | returned (r : TestResult)
  | raised (msg : String)
  deriving DecidableEq

/-- The fixed ordered SSL mode list of connection_troubleshoot.py lines
14-19 (the description strings are dropped; they only feed prints). -/
def ssl_modes : List String :=
  ["disable", "allow", "prefer", "require"]

/-- The for-loop of test_connection_with_ssl_modes (lines 24-74) over a
list of remaining modes.  The try block covers connect, execute and
fetchone; only pyodbc.Error is caught (line 57), so a driver error is
printed and the loop continues, while a generic error propagates out of
the routine.  A success returns at once (line 51).  Falling off the loop
returns the failure dict (line 75).  The second component is the trace of
modes actually attempted, in order. -/
def tryModes (attempt : String → AttemptOutcome) : List String → RunOutcome × List String
  | [] => (.returned .failed, [])
  | m :: rest =>
    match attempt m with
    | .success v => (.returned (.connected m v), [m])
    | .driverError _ => ((tryModes attempt rest).1, m :: (tryModes attempt rest).2)
    | .genericError e => (.raised e, [m])

/-- test_connection_with_ssl_modes for one credential set, given the
oracle describing what each connection attempt does for that credential
set. -/
def test_connection_with_ssl_modes (attempt : String → AttemptOutcome) :
    RunOutcome × List String :=
  tryModes attempt ssl_modes

/-- One credential set of the test_configs list in main
(connection_troubleshoot.py lines 108-113). -/
structure Config where
  database : String
  user : String
  password : String
  deriving DecidableEq

/-- The fixed credential sets tried by main (lines 108-113). -/
def test_configs : List Config :=
  [⟨"orca", "orca", "orca"⟩,
   ⟨"receipt", "receipt", "receipt"⟩,
   ⟨"weborca", "weborca", "weborca"⟩,
   ⟨"postgres", "postgres", ""⟩]

/-- The config loop of main (lines 115-126): run the SSL-mode routine for
each credential set, collecting the successful configs in order; an
exception raised out of the routine aborts main at that point (there is
no try inside main itself). -/
def runConfigs (attempt : Config → String → AttemptOutcome) :
    List Config → Except String (List Config)
  | [] => .ok []
  | c :: rest =>
    match (test_connection_with_ssl_modes (attempt c)).1 with
    | .raised e => .error e
    | .returned (.connected _ _) => (runConfigs attempt rest).map (c :: ·)
    | .returned .failed => runConfigs attempt rest

/-- The per-pair pg_hba rule lines of generate_pg_hba_entries
(lines 85-90): for every database and every user, one hostssl line and
one host line against the client IP. -/
def hba_rules (databases users : List String) (client_ip : String) : List String :=
  databases.flatMap fun db => users.flatMap fun user =>
    ["hostssl    " ++ pad12 db ++ " " ++ pad12 user ++ " " ++ client_ip ++ "/32        md5",
     "host       " ++ pad12 db ++ " " ++ pad12 user ++ " " ++ client_ip ++ "/32        md5"]

/-- generate_pg_hba_entries (lines 77-98) as the list of entry lines; the
Python function returns their newline join. -/
def generate_pg_hba_entries (databases users : List String)
    (client_ip : String) : List String :=
  ["# Add these lines to pg_hba.conf on the PostgreSQL server",
   "# (Replace /32 with appropriate subnet if needed)",
   ""] ++
  hba_rules databases users client_ip ++
  ["",
   "# After adding these lines:",
   "# 1. Save the pg_hba.conf file",
   "# 2. Restart PostgreSQL or run: SELECT pg_reload_conf();",
   "# 3. Test the connection again"]

/-- The separator line of 60 equal signs printed around the summary. -/
def eq60 : String :=
  String.mk (List.replicate 60 '=')

/-- The alternative connectivity workarounds printed at the end of the
all-failed branch of main (lines 155-163), one item per print call. -/
def alternative_solutions : List String :=
  ["1. VPN/Tunnel: Connect through a VPN that routes through an allowed IP",
   "2. SSH Tunnel: Create an SSH tunnel to the database server",
   "   Example: ssh -L 5432:localhost:5432 user@100.126.66.97",
   "   Then connect to localhost:5432 instead",
   "3. Proxy: Use a database proxy server located in an allowed network",
   "\n4. Request firewall/network changes to allow your IP:",
   "   Your IP: 100.89.18.15",
   "   Target: 100.126.66.97:5432"]

/-- The TROUBLESHOOTING SUMMARY section printed by main after the config
loop (lines 128-163), one list item per print call, as a function of the
successful configs. -/
def summary_output (successful : List Config) : List String :=
  ["\n" ++ eq60, "TROUBLESHOOTING SUMMARY", eq60] ++
  (if successful.isEmpty then
    ["✗ No successful connections",
     "\nROOT CAUSE:",
     "The PostgreSQL server\x27s pg_hba.conf file does not allow",
     "connections from your IP address (100.89.18.15).",
     "\n" ++ eq60,
     "SOLUTION FOR DATABASE ADMINISTRATOR",
     eq60,
     String.intercalate "\n"
       (generate_pg_hba_entries (test_configs.map (fun c => c.database))
         (test_configs.map (fun c => c.user)) "100.89.18.15"),
     "\n" ++ eq60,
     "ALTERNATIVE SOLUTIONS",
     eq60] ++ alternative_solutions
  else
    ("✓ Successfully connected to " ++ toString successful.length ++ " database(s)") ::
      successful.map (fun c => "  - " ++ c.database ++ " as " ++ c.user))

/-- main (lines 100-163), abstracted to its summary section: run the
config loop and, if no exception escaped, print the summary; an escaped
exception reaches the top-level handler instead and nothing after the
loop is printed. -/
def main_troubleshoot (attempt : Config → String → AttemptOutcome) :
    Except String (List String) :=
  (runConfigs attempt test_configs).map summary_output

/-- The process exit code of connection_troubleshoot.py (lines 165-173):
0 after a user interrupt, 0 when main returns, 1 when an exception
escapes main. -/
def troubleshoot_process_exit (attempt : Config → String → AttemptOutcome)
    (interrupted : Bool) : Nat :=
  if interrupted then 0
  else
    match main_troubleshoot attempt with
    | .ok _ => 0
    | .error _ => 1

/-- Oracle for witnesses: every attempt of every credential set fails with
a driver-level (pyodbc) error. -/
def allDriverFail : Config → String → AttemptOutcome :=
  fun _ _ => .driverError "no pg_hba.conf entry for host"

/-- Oracle for witnesses: the connection attempt raises a generic
(non-pyodbc) exception. -/
def genericFailOracle : Config → String → AttemptOutcome :=
  fun _ _ => .genericError "boom"

/-- Oracle for witnesses: the first two SSL modes fail with driver errors
and the third one succeeds. -/
def sslOracle : String → AttemptOutcome := fun m =>
  if m = "prefer" then .success "PostgreSQL 15.4" else .driverError "connection refused"

/-! ## test_orca_odbc.py -/

/-- SQL CASE on the sex code (test_orca_odbc.py lines 191-195): code 1 is
male, code 2 is female, anything else is unknown. -/
def gender_label (sex : Option String) : String :=
  if sex = some "1" then "男性" else if sex = some "2" then "女性" else "不明"

/-- SQL CASE on the death-status code (lines 203-206): non-null and not a
single blank means deceased, otherwise alive. -/
def status_label (deathkbn : Option String) : String :=
  match deathkbn with
  | some d => if d ≠ " " then "死亡" else "生存"
  | none => "生存"

/-- SQL CASE on the birth date string (lines 196-202 and 304-310):
a non-null non-empty birthday is rendered as the 1..4, 5..6 and 7..8
SUBSTRING pieces joined with the Japanese year, month and day marks,
otherwise a fixed unknown-birth-date sentinel. -/
def birth_date (birthday : Option String) : String :=
  match birthday with
  | some b =>
      if b ≠ "" then
        sqlSubstring b 1 4 ++ "年" ++ sqlSubstring b 5 2 ++ "月" ++ sqlSubstring b 7 2 ++ "日"
      else "生年月日不明"
  | none => "生年月日不明"

/-- Visit time formatting (test_orca_odbc.py lines 418-421, identical
expression in check_today_visits.py line 41): a truthy time of length at
least 6 becomes HH:MM:SS from its character slices 0:2, 2:4 and 4:6;
otherwise the raw value, with the unset sentinel for None or empty. -/
def timeStr (uketime : Option String) : String :=
  match uketime with
  | some u =>
      if u ≠ "" ∧ 6 ≤ u.length then
        u.take 2 ++ ":" ++ (u.drop 2).take 2 ++ ":" ++ (u.drop 4).take 2
      else pyOr (some u) "未設定"
  | none => pyOr none "未設定"

/-- The fixed department code lookup table (lines 428-441, repeated at
lines 472-476). -/
def dept_map : List (String × String) :=
  [("01", "内科"), ("02", "外科"), ("03", "小児科"), ("04", "産婦人科"),
   ("05", "眼科"), ("06", "耳鼻科"), ("07", "皮膚科"), ("08", "泌尿器科"),
   ("09", "整形外科"), ("10", "脳神経外科"), ("11", "呼吸器科"), ("12", "循環器科")]

/-- Python dict.get(k, d) over an association list, where the key read
from the database may be NULL (None is never a key of dept_map). -/
def dictGet (m : List (String × String)) (k : Option String) (d : String) : String :=
  match k with
  | some c => (m.lookup c).getD d
  | none => d

/-- Department display in the per-visit table (line 442):
dept_map.get(sryka, sryka or the unset sentinel). -/
def dept_name_visit (sryka : Option String) : String :=
  dictGet dept_map sryka (pyOr sryka "未設定")

/-- Department display in the per-department visit count breakdown
(line 477): dept_map.get(dept, dept or the unknown sentinel). -/
def dept_name_stats (dept : Option String) : String :=
  dictGet dept_map dept (pyOr dept "不明")

/-- The truncation step of list_patients (lines 234-237) and of the name
field of show_todays_visits (lines 445-446): over 18 characters becomes
the first 15 plus an ellipsis marker. -/
def truncate18 (s : String) : String :=
  if 18 < s.length then s.take 15 ++ "..." else s

/-- The truncation step of the kana field of show_todays_visits
(lines 447-448): over 16 characters becomes the first 13 plus an
ellipsis marker. -/
def truncate16 (s : String) : String :=
  if 16 < s.length then s.take 13 ++ "..." else s

/-- The truncation step of search_patients (lines 340-345): over 13
characters becomes the first 10 plus an ellipsis marker. -/
def truncate13 (s : String) : String :=
  if 13 < s.length then s.take 10 ++ "..." else s

/-- Displayed name cell of list_patients (lines 227 and 234-235):
fallback for an absent name, then truncation; printed centered in a
20-wide column. -/
def list_display_name (raw : Option String) : String :=
  truncate18 (pyOr raw "名前なし")

/-- Displayed kana cell of list_patients (lines 228 and 236-237). -/
def list_display_kana (raw : Option String) : String :=
  truncate18 (pyOr raw "フリガナなし")

/-- Displayed name cell of search_patients (lines 333 and 340-341);
printed centered in a 15-wide column. -/
def search_display_name (raw : Option String) : String :=
  truncate13 (pyOr raw "名前なし")

/-- Displayed kana cell of search_patients (lines 334 and 342-343). -/
def search_display_kana (raw : Option String) : String :=
  truncate13 (pyOr raw "フリガナなし")

/-- Displayed phone cell of search_patients (lines 337 and 344-345). -/
def search_display_phone (raw : Option String) : String :=
  truncate13 (pyOr raw "未登録")

/-- Displayed name cell of show_todays_visits (lines 424 and 445-446):
visit record name, else patient table full name, else the no-name
sentinel, then truncation at 18. -/
def visit_display_name (name full_name : Option String) : String :=
  truncate18 (pyOr name (pyOr full_name "名前なし"))

/-- Displayed kana cell of show_todays_visits (lines 425 and 447-448). -/
def visit_display_kana (raw : Option String) : String :=
  truncate16 (pyOr raw "フリガナなし")

/-- A row of the patient listing query (lines 186-211), with the
SQL-computed columns kept as their raw source fields. -/
structure PatientRow where
  ptid : Int
  name : Option String
  kananame : Option String
  sex : Option String
  birthday : Option String
  deathkbn : Option String

/-- A row of the patient search query (lines 294-317). -/
structure SearchRow where
  ptid : Int
  name : Option String
  kananame : Option String
  sex : Option String
  birthday : Option String
  home_tel1 : Option String
  home_adrs : Option String

/-- A row of the todays-visits query (lines 382-400). -/
structure VisitRow where
  ukeymd : Option String
  uketime : Option String
  ptid : Int
  name : Option String
  sryka : Option String
  full_name : Option String
  kananame : Option String
  sex : Option String
  birthday : Option String

/-- The separator line of 80 equal signs of the patient list table. -/
def eq80 : String :=
  String.mk (List.replicate 80 '=')

/-- The separator line of 100 equal signs of the search result table. -/
def eq100 : String :=
  String.mk (List.replicate 100 '=')

/-- The separator line of 90 equal signs of the visits table. -/
def eq90 : String :=
  String.mk (List.replicate 90 '=')

/-- One data line of the patient list table (line 239). -/
def patient_row_line (p : PatientRow) : String :=
  pyRight (toString p.ptid) 4 ++ " | " ++ pyCenter (list_display_name p.name) 20 ++ " | " ++
    pyCenter (list_display_kana p.kananame) 20 ++ " | " ++ pyCenter (gender_label p.sex) 6 ++
    " | " ++ pyCenter (birth_date p.birthday) 12 ++ " | " ++ pyCenter (status_label p.deathkbn) 6

/-- The three header lines of the patient list table (lines 221-223). -/
def patients_table_header : List String :=
  [eq80,
   pyRight "ID" 4 ++ " | " ++ pyCenter "患者名" 20 ++ " | " ++ pyCenter "フリガナ" 20 ++ " | " ++
     pyCenter "性別" 6 ++ " | " ++ pyCenter "生年月日" 12 ++ " | " ++ pyCenter "状態" 6,
   eq80]

/-- Console output of list_patients after the query returned (lines
216-241): the explicit no-data message for an empty result set, otherwise
the count line, the table header, one line per patient and the closing
separator.  (The statistics section printed afterwards comes from a
second, independent query and is not modelled.) -/
def list_patients_output (patients : List PatientRow) : List String :=
  if patients.isEmpty then
    ["患者データが見つかりませんでした。"]
  else
    ("登録患者数: " ++ toString patients.length ++ "名\n") ::
      patients_table_header ++ patients.map patient_row_line ++ [eq80]

/-- One data line of the search result table (line 347). -/
def search_row_line (p : SearchRow) : String :=
  pyRight (toString p.ptid) 4 ++ " | " ++ pyCenter (search_display_name p.name) 15 ++ " | " ++
    pyCenter (search_display_kana p.kananame) 15 ++ " | " ++ pyCenter (gender_label p.sex) 6 ++
    " | " ++ pyCenter (birth_date p.birthday) 12 ++ " | " ++
    pyCenter (search_display_phone p.home_tel1) 15

/-- The three header lines of the search result table (lines 327-329). -/
def search_table_header : List String :=
  [eq100,
   pyRight "ID" 4 ++ " | " ++ pyCenter "患者名" 15 ++ " | " ++ pyCenter "フリガナ" 15 ++ " | " ++
     pyCenter "性別" 6 ++ " | " ++ pyCenter "生年月日" 12 ++ " | " ++ pyCenter "電話番号" 15,
   eq100]

/-- Console output of search_patients after the query returned (lines
323-349): the no-match message naming the search term for an empty result
set, otherwise the count line, the table header, one line per match and
the closing separator. -/
def search_patients_output (search_term : String) (results : List SearchRow) : List String :=
  if results.isEmpty then
    ["「" ++ search_term ++ "」に一致する患者が見つかりませんでした。"]
  else
    ("検索結果: " ++ toString results.length ++ "件\n") ::
      search_table_header ++ results.map search_row_line ++ [eq100]

/-- The Japanese rendering of the 8-digit today string used in both
messages of show_todays_visits (lines 406 and 409). -/
def today_jp (today : String) : String :=
  today.take 4 ++ "年" ++ (today.drop 4).take 2 ++ "月" ++ (today.drop 6).take 2 ++ "日"

/-- One data line of the visits table (line 450). -/
def visit_row_line (v : VisitRow) : String :=
  pyCenter (timeStr v.uketime) 12 ++ " | " ++ pyCenter (toString v.ptid) 8 ++ " | " ++
    pyCenter (visit_display_name v.name v.full_name) 20 ++ " | " ++
    pyCenter (visit_display_kana v.kananame) 18 ++ " | " ++ pyCenter (dept_name_visit v.sryka) 8

/-- The three header lines of the visits table (lines 410-412). -/
def visits_table_header : List String :=
  [eq90,
   pyCenter "来院時刻" 12 ++ " | " ++ pyCenter "患者ID" 8 ++ " | " ++ pyCenter "患者名" 20 ++
     " | " ++ pyCenter "フリガナ" 18 ++ " | " ++ pyCenter "診療科" 8,
   eq90]

/-- Console output of show_todays_visits after the visits query returned
(lines 405-452): the explicit no-visitors message for an empty result
set, otherwise the count line, the table header, one line per visit and
the closing separator. -/
def todays_visits_output (today : String) (visits : List VisitRow) : List String :=
  if visits.isEmpty then
    ["本日（" ++ today_jp today ++ "）の来院患者はいません。"]
  else
    ("本日（" ++ today_jp today ++ "）の来院患者数: " ++ toString visits.length ++ "名\n") ::
      visits_table_header ++ visits.map visit_row_line ++ [eq90]

/-- The per-department statistics section (lines 469-478): nothing when
the grouped query returned no rows, otherwise one line per department. -/
def dept_stats_output (stats : List (Option String × Nat)) : List String :=
  if stats.isEmpty then []
  else stats.map (fun p => dept_name_stats p.1 ++ ": " ++ toString p.2 ++ "名")

/-- How the body of one reporting routine of test_orca_odbc.py ends, as
seen by its two except clauses: a normal value, a pyodbc.Error, or any
other exception. -/
inductive BodyOutcome where
  | value
  | pyodbcError (msg : String)
  | otherError (msg : String)
  deriving DecidableEq

/-- How a routine call of test_orca_odbc.py ends: a normal return (with
the error line it printed, if any), or an exception escaping the
routine. -/
inductive RoutineExit where
  | returned (errorLine : Option String)
  | raised (msg : String)
  deriving DecidableEq

/-- How a reporting routine call ends: list_patients (lines 265-268),
search_patients (lines 354-357) and show_todays_visits (lines 483-486)
all wrap their whole body in except pyodbc.Error plus except Exception,
print the corresponding error line and fall off the function, so every
body outcome yields a normal return. -/
def reporting_routine_exit : BodyOutcome → RoutineExit
  | .value => .returned none
  | .pyodbcError e => .returned (some ("✗ データベース接続エラー: " ++ e))
  | .otherError e => .returned (some ("✗ 予期しないエラー: " ++ e))

/-- Top-level outcome of the test_orca_odbc.py entry point. -/
inductive TopOutcome where
  | completed
  | importError
  | keyboardInterrupt
  | unhandled (msg : String)
  deriving DecidableEq

/-- Process exit code of test_orca_odbc.py (lines 614-623): pyodbc import
failure exits 1, user interrupt exits 0, any other escaped exception
exits 1, and falling off the end of the script exits 0. -/
def orca_exit_code : TopOutcome → Nat
  | .completed => 0
  | .importError => 1
  | .keyboardInterrupt => 0
  | .unhandled _ => 1

/-! ## Helper lemmas -/

/-- A string of positive length is not the empty string. -/
theorem ne_empty_of_length_pos {s : String} (h : 0 < s.length) : s ≠ "" := by
  intro he
  subst he
  exact absurd h (by decide)

/-- Character length of a take is at most the requested count. -/
theorem string_length_take_le (s : String) (n : Nat) : (s.take n).length ≤ n := by
  rw [String.take_eq]
  calc (String.mk (s.data.take n)).length = (s.data.take n).length := rfl
    _ ≤ n := by rw [List.length_take]; exact Nat.min_le_left n s.data.length

/-- Head character of an append with a nonempty left part. -/
theorem head_append_left (a b : String) (h : a.data ≠ []) :
    (a ++ b).data.head? = a.data.head? := by
  rw [String.data_append]
  cases hd : a.data with
  | nil => exact absurd hd h
  | cons x xs => rfl

/-- Strings whose first characters differ are different. -/
theorem ne_of_head_char {a b : String} {c d : Char} (ha : a.data.head? = some c)
    (hb : b.data.head? = some d) (hcd : c ≠ d) : a ≠ b := by
  intro he
  rw [he, hb] at ha
  exact hcd (Option.some.inj ha).symm

/-- The trace of modes attempted by the SSL loop is an initial segment of
the mode list it was given. -/
theorem tryModes_trace_take (attempt : String → AttemptOutcome) :
    ∀ ms : List String, ∃ k, (tryModes attempt ms).2 = ms.take k := by
  intro ms
  induction ms with
  | nil => exact ⟨0, rfl⟩
  | cons m rest ih =>
    cases h : attempt m with
    | success v => exact ⟨1, by simp [tryModes, h]⟩
    | driverError e =>
        obtain ⟨k, hk⟩ := ih
        exact ⟨k + 1, by simp [tryModes, h, hk]⟩
    | genericError e => exact ⟨1, by simp [tryModes, h]⟩

/-- When the SSL loop returns the success dict for mode m with version v,
the attempt at m did succeed with v, m is the last attempted mode, and
every earlier attempted mode failed with a driver error. -/
theorem tryModes_connected (attempt : String → AttemptOutcome) :
    ∀ ms m v, (tryModes attempt ms).1 = .returned (.connected m v) →
      attempt m = .success v ∧
      ∃ pre, (tryModes attempt ms).2 = pre ++ [m] ∧
        ∀ x ∈ pre, ∃ e, attempt x = .driverError e := by
  intro ms
  induction ms with
  | nil => intro m v h; simp [tryModes] at h
  | cons a rest ih =>
    intro m v h
    cases ha : attempt a with
    | success w =>
        simp only [tryModes, ha] at h
        obtain ⟨ham, hwv⟩ : a = m ∧ w = v := by
          cases h
          exact ⟨rfl, rfl⟩
        subst ham; subst hwv
        exact ⟨ha, [], by simp [tryModes, ha], by simp⟩
    | driverError e =>
        simp only [tryModes, ha] at h
        obtain ⟨hav, pre, hpre, hall⟩ := ih m v h
        refine ⟨hav, a :: pre, by simp [tryModes, ha, hpre], ?_⟩
        intro x hx
        rcases List.mem_cons.mp hx with hxa | hxp
        · exact ⟨e, by rw [hxa, ha]⟩
        · exact hall x hxp
    | genericError e => simp [tryModes, ha] at h

/-- When no attempt raises a generic error the SSL loop never raises. -/
theorem tryModes_no_raise (attempt : String → AttemptOutcome)
    (hng : ∀ m e, attempt m ≠ .genericError e) :
    ∀ ms e, (tryModes attempt ms).1 ≠ .raised e := by
  intro ms
  induction ms with
  | nil => intro e h; simp [tryModes] at h
  | cons a rest ih =>
    intro e h
    cases ha : attempt a with
    | success v => simp [tryModes, ha] at h
    | driverError d =>
        simp only [tryModes, ha] at h
        exact ih e h
    | genericError g => exact hng a g ha

/-- When no attempt of any credential set raises a generic error, the
config loop of main completes normally. -/
theorem runConfigs_ok_of_no_generic (attempt : Config → String → AttemptOutcome)
    (hng : ∀ c m e, attempt c m ≠ .genericError e) :
    ∀ cs, ∃ succ, runConfigs attempt cs = .ok succ := by
  intro cs
  induction cs with
  | nil => exact ⟨[], rfl⟩
  | cons c rest ih =>
    obtain ⟨succ, hs⟩ := ih
    cases hr : (test_connection_with_ssl_modes (attempt c)).1 with
    | raised e =>
        exact absurd hr (tryModes_no_raise (attempt c) (fun m e => hng c m e) ssl_modes e)
    | returned r =>
        cases r with
        | connected m v => exact ⟨c :: succ, by simp [runConfigs, hr, hs, Except.map]⟩
        | failed => exact ⟨succ, by simp [runConfigs, hr, hs]⟩

/-- Given a normal completion of the config loop, the collected list is
empty exactly when no credential set ever got a successful connection. -/
theorem runConfigs_nil_iff (attempt : Config → String → AttemptOutcome) :
    ∀ cs succ, runConfigs attempt cs = .ok succ →
      (succ = [] ↔ ∀ c ∈ cs, ∀ m v,
        (test_connection_with_ssl_modes (attempt c)).1 ≠ .returned (.connected m v)) := by
  intro cs
  induction cs with
  | nil =>
      intro succ h
      simp only [runConfigs] at h
      cases h
      simp
  | cons a rest ih =>
    intro succ h
    cases hr : (test_connection_with_ssl_modes (attempt a)).1 with
    | raised e => rw [runConfigs, hr] at h; cases h
    | returned r =>
      cases r with
      | connected m v =>
          rw [runConfigs, hr] at h
          cases hrest : runConfigs attempt rest with
          | error e => rw [hrest] at h; cases h
          | ok s =>
              rw [hrest] at h
              simp only [Except.map] at h
              cases h
              constructor
              · intro hnil; cases hnil
              · intro hall
                exact absurd hr (hall a (by simp) m v)
      | failed =>
          rw [runConfigs, hr] at h
          rw [ih succ h]
          constructor
          · intro hrest c hc
            rcases List.mem_cons.mp hc with hca | hcr
            · subst hca
              intro m v hcon
              rw [hr] at hcon
              cases hcon
            · exact hrest c hcr
          · intro hall c hc
            exact hall c (List.mem_cons_of_mem a hc)

/-- The config loop collects at most one entry per supplied config. -/
theorem runConfigs_length_le (attempt : Config → String → AttemptOutcome) :
    ∀ cs succ, runConfigs attempt cs = .ok succ → succ.length ≤ cs.length := by
  intro cs
  induction cs with
  | nil =>
      intro succ h
      simp only [runConfigs] at h
      cases h
      exact Nat.le_refl 0
  | cons a rest ih =>
    intro succ h
    cases hr : (test_connection_with_ssl_modes (attempt a)).1 with
    | raised e => rw [runConfigs, hr] at h; cases h
    | returned r =>
      cases r with
      | connected m v =>
          rw [runConfigs, hr] at h
          cases hrest : runConfigs attempt rest with
          | error e => rw [hrest] at h; cases h
          | ok s =>
              rw [hrest] at h
              simp only [Except.map] at h
              cases h
              simpa using Nat.succ_le_succ (ih s hrest)
      | failed =>
          rw [runConfigs, hr] at h
          exact Nat.le_trans (ih succ h) (Nat.le_succ rest.length)

/-! ## Claim theorems -/

/-- C2: for every credential set handed to the diagnostic routine, the
SSL modes are attempted in the fixed order disable, allow, prefer,
require (the trace of attempts is an initial, hence duplicate-free,
segment of that list), and when the routine returns a success its mode
really succeeded with the returned server version, it is the last mode
attempted, and every mode attempted before it had failed. -/
theorem c2_ssl_mode_enumeration (attempt : String → AttemptOutcome) :
    (∃ k, (test_connection_with_ssl_modes attempt).2 = ssl_modes.take k) ∧
    (test_connection_with_ssl_modes attempt).2.Nodup ∧
    ∀ m v, (test_connection_with_ssl_modes attempt).1 = .returned (.connected m v) →
      attempt m = .success v ∧
      ∃ pre, (test_connection_with_ssl_modes attempt).2 = pre ++ [m] ∧
        ∀ x ∈ pre, ∃ e, attempt x = .driverError e := by
  obtain ⟨k, hk⟩ := tryModes_trace_take attempt ssl_modes
  refine ⟨⟨k, hk⟩, ?_, fun m v h => tryModes_connected attempt ssl_modes m v h⟩
  rw [show (test_connection_with_ssl_modes attempt).2 = ssl_modes.take k from hk]
  exact List.Nodup.sublist (List.take_sublist k ssl_modes) (by decide)

/-- C2 witness: under the oracle whose prefer mode succeeds after two
driver failures, the routine returns that mode and version, having
attempted exactly disable, allow, prefer. -/
theorem c2_witness :
    sslOracle "prefer" = .success "PostgreSQL 15.4" ∧
    ∃ pre, (test_connection_with_ssl_modes sslOracle).2 = pre ++ ["prefer"] ∧
      ∀ x ∈ pre, ∃ e, sslOracle x = .driverError e :=
  (c2_ssl_mode_enumeration sslOracle).2.2 "prefer" "PostgreSQL 15.4" (by decide)

/-- C1 counterexample: the SSL-mode diagnostic routine catches only
pyodbc.Error, so a generic error raised during a connection attempt
escapes the routine, main is aborted before the summary, and the process
exits nonzero, contradicting the claim that every routine catches generic
errors at its own boundary and that the tool always prints its summary. -/
theorem c1_counterexample :
    (test_connection_with_ssl_modes (genericFailOracle ⟨"orca", "orca", "orca"⟩)).1 =
      .raised "boom" ∧
    main_troubleshoot genericFailOracle = .error "boom" ∧
    troubleshoot_process_exit genericFailOracle false = 1 :=
  ⟨by decide, rfl, rfl⟩

/-- C1 (amended): the SSL-mode diagnostic routine catches driver-level
errors at its boundary, so whenever no connection attempt raises a
generic (non-driver) error the tool completes and prints its summary;
and each reporting routine of the main test script catches both
driver-level and generic errors and returns normally for every body
outcome.  A generic error in the diagnostic routine instead propagates
to the single top-level catch-all, which sets a nonzero exit code. -/
theorem c1_error_handling (attempt : Config → String → AttemptOutcome)
    (hng : ∀ c m e, attempt c m ≠ .genericError e) :
    (∃ out, main_troubleshoot attempt = .ok out ∧ "TROUBLESHOOTING SUMMARY" ∈ out) ∧
    ∀ body : BodyOutcome, ∃ line, reporting_routine_exit body = .returned line := by
  obtain ⟨succ, hs⟩ := runConfigs_ok_of_no_generic attempt hng test_configs
  refine ⟨⟨summary_output succ, ?_, ?_⟩, ?_⟩
  · simp [main_troubleshoot, hs, Except.map]
  · simp [summary_output]
  · intro body
    cases body with
    | value => exact ⟨none, rfl⟩
    | pyodbcError e => exact ⟨some _, rfl⟩
    | otherError e => exact ⟨some _, rfl⟩

/-- C1 witness: with every attempt failing at the driver level, the
diagnostic tool still completes and prints its summary. -/
theorem c1_witness :
    (∃ out, main_troubleshoot allDriverFail = .ok out ∧ "TROUBLESHOOTING SUMMARY" ∈ out) ∧
    ∀ body : BodyOutcome, ∃ line, reporting_routine_exit body = .returned line :=
  c1_error_handling allDriverFail (by intro c m e; simp [allDriverFail])

/-- C3 counterexample: the generated pg_hba suggestion contains an allow
rule for database orca with user receipt, a database/user pair that no
credential set ever tried (the tried pairs all have database = user),
so the rules are not exactly the tried pairs. -/
theorem c3_counterexample :
    ("hostssl    " ++ pad12 "orca" ++ " " ++ pad12 "receipt" ++ " " ++ "100.89.18.15" ++
        "/32        md5") ∈
      generate_pg_hba_entries (test_configs.map (fun c => c.database))
        (test_configs.map (fun c => c.user)) "100.89.18.15" ∧
    (∀ c ∈ test_configs, ¬(c.database = "orca" ∧ c.user = "receipt")) ∧
    main_troubleshoot allDriverFail = .ok (summary_output []) :=
  ⟨by decide, by decide, rfl⟩

/-- C3 (amended): when main completes, the all-failed summary block is
printed exactly when no credential set got a successful connection; the
generated entries contain a hostssl and a host allow rule for every pair
in the cross product of the tried databases and the tried users (a
superset of the tried pairs) against the caller IP; and in the all-failed
output the pg_hba suggestion is followed by the alternative connectivity
workarounds. -/
theorem c3_pg_hba_emission (attempt : Config → String → AttemptOutcome) (out : List String)
    (h : main_troubleshoot attempt = .ok out) :
    (out = summary_output [] ↔ ∀ c ∈ test_configs, ∀ m v,
        (test_connection_with_ssl_modes (attempt c)).1 ≠ .returned (.connected m v)) ∧
    (∀ db ∈ test_configs.map (fun c => c.database),
      ∀ u ∈ test_configs.map (fun c => c.user),
      ("hostssl    " ++ pad12 db ++ " " ++ pad12 u ++ " " ++ "100.89.18.15" ++
          "/32        md5") ∈
        generate_pg_hba_entries (test_configs.map (fun c => c.database))
          (test_configs.map (fun c => c.user)) "100.89.18.15" ∧
      ("host       " ++ pad12 db ++ " " ++ pad12 u ++ " " ++ "100.89.18.15" ++
          "/32        md5") ∈
        generate_pg_hba_entries (test_configs.map (fun c => c.database))
          (test_configs.map (fun c => c.user)) "100.89.18.15") ∧
    summary_output [] =
      ["\n" ++ eq60, "TROUBLESHOOTING SUMMARY", eq60,
       "✗ No successful connections",
       "\nROOT CAUSE:",
       "The PostgreSQL server\x27s pg_hba.conf file does not allow",
       "connections from your IP address (100.89.18.15).",
       "\n" ++ eq60,
       "SOLUTION FOR DATABASE ADMINISTRATOR",
       eq60,
       String.intercalate "\n"
         (generate_pg_hba_entries (test_configs.map (fun c => c.database))
           (test_configs.map (fun c => c.user)) "100.89.18.15"),
       "\n" ++ eq60,
       "ALTERNATIVE SOLUTIONS",
       eq60] ++ alternative_solutions := by
  obtain ⟨succ, hsucc, hout⟩ :
      ∃ succ, runConfigs attempt test_configs = .ok succ ∧ out = summary_output succ := by
    cases hr : runConfigs attempt test_configs with
    | error e => rw [main_troubleshoot, hr] at h; cases h
    | ok succ =>
        rw [main_troubleshoot, hr] at h
        simp only [Except.map] at h
        cases h
        exact ⟨succ, rfl, rfl⟩
  refine ⟨?_, by decide, rfl⟩
  constructor
  · intro hnilout
    rw [← runConfigs_nil_iff attempt test_configs succ hsucc]
    by_contra hne
    obtain ⟨c, cs, hcons⟩ : ∃ c cs, succ = c :: cs := by
      cases succ with
      | nil => exact absurd rfl hne
      | cons c cs => exact ⟨c, cs, rfl⟩
    have hlen : (summary_output succ).length = 4 + succ.length := by
      subst hcons
      simp [summary_output]
      omega
    have hlen22 : (summary_output ([] : List Config)).length = 22 := by decide
    have hlen4 : succ.length ≤ 4 := runConfigs_length_le attempt test_configs succ hsucc
    have hcong : (summary_output succ).length = (summary_output ([] : List Config)).length := by
      rw [← hout, hnilout]
    rw [hlen, hlen22] at hcong
    omega
  · intro hall
    have : succ = [] := (runConfigs_nil_iff attempt test_configs succ hsucc).mpr hall
    rw [hout, this]

/-- C3 witness: with every attempt failing at the driver level, the
emission equivalence holds at the all-failed output. -/
theorem c3_witness :
    summary_output [] = summary_output [] ↔ ∀ c ∈ test_configs, ∀ m v,
      (test_connection_with_ssl_modes (allDriverFail c)).1 ≠ .returned (.connected m v) :=
  (c3_pg_hba_emission allDriverFail (summary_output []) rfl).1

/-- C9: the process exit code is 0 on normal completion, 1 when the
driver module is missing, 0 on user interrupt, 1 on any unhandled
top-level error; likewise the troubleshooting script exits 0 on
interrupt, 0 when main returns and 1 when an exception escapes main. -/
theorem c9_exit_codes :
    orca_exit_code .completed = 0 ∧
    orca_exit_code .importError = 1 ∧
    orca_exit_code .keyboardInterrupt = 0 ∧
    (∀ e, orca_exit_code (.unhandled e) = 1) ∧
    (∀ attempt, troubleshoot_process_exit attempt true = 0) ∧
    (∀ attempt out, main_troubleshoot attempt = .ok out →
      troubleshoot_process_exit attempt false = 0) ∧
    (∀ attempt e, main_troubleshoot attempt = .error e →
      troubleshoot_process_exit attempt false = 1) := by
  refine ⟨rfl, rfl, rfl, fun e => rfl, fun attempt => rfl, ?_, ?_⟩
  · intro attempt out h
    simp [troubleshoot_process_exit, h]
  · intro attempt e h
    simp [troubleshoot_process_exit, h]

/-- C9 witness: a run whose attempts all fail at the driver level exits
0, a run aborted by a generic error exits 1. -/
theorem c9_witness :
    troubleshoot_process_exit allDriverFail false = 0 ∧
    troubleshoot_process_exit genericFailOracle false = 1 :=
  ⟨c9_exit_codes.2.2.2.2.2.1 allDriverFail (summary_output []) rfl,
   c9_exit_codes.2.2.2.2.2.2 genericFailOracle "boom" rfl⟩

/-- C4: a truthy visit-time string of length at least 6 is shown as its
0:2, 2:4 and 4:6 character slices joined with colons; a null or empty
time shows the unset sentinel; a non-empty time shorter than 6 characters
is shown unchanged. -/
theorem c4_time_format :
    (∀ u : String, 6 ≤ u.length →
      timeStr (some u) = u.take 2 ++ ":" ++ (u.drop 2).take 2 ++ ":" ++ (u.drop 4).take 2) ∧
    timeStr none = "未設定" ∧
    timeStr (some "") = "未設定" ∧
    (∀ u : String, u ≠ "" → u.length < 6 → timeStr (some u) = u) := by
  refine ⟨?_, rfl, by decide, ?_⟩
  · intro u h
    have hne : u ≠ "" := ne_empty_of_length_pos (by omega)
    simp [timeStr, hne, h]
  · intro u hne hlt
    simp [timeStr, hne, pyOr, Nat.not_le.mpr hlt]

/-- C4 witness: a six-digit time is formatted with colons and a
four-character time is passed through unchanged. -/
theorem c4_witness :
    timeStr (some "093000") =
      "093000".take 2 ++ ":" ++ ("093000".drop 2).take 2 ++ ":" ++ ("093000".drop 4).take 2 ∧
    timeStr (some "0930") = "0930" :=
  ⟨c4_time_format.1 "093000" (by decide), c4_time_format.2.2.2 "0930" (by decide) (by decide)⟩

/-- C5: department code 01 shows the internal-medicine name and 02 the
surgery name; a non-empty code outside the fixed table shows the raw code
itself; a null or empty code shows the unset sentinel; and for the
two-character codes of the data model an unmapped code never collides
with that sentinel. -/
theorem c5_dept_lookup :
    dept_name_visit (some "01") = "内科" ∧
    dept_name_visit (some "02") = "外科" ∧
    (∀ c : String, dept_map.lookup c = none → c ≠ "" → dept_name_visit (some c) = c) ∧
    dept_name_visit none = "未設定" ∧
    dept_name_visit (some "") = "未設定" ∧
    (∀ c : String, dept_map.lookup c = none → c ≠ "" → c.length = 2 →
      dept_name_visit (some c) ≠ dept_name_visit none) := by
  refine ⟨by decide, by decide, ?_, rfl, by decide, ?_⟩
  · intro c hl hne
    simp [dept_name_visit, dictGet, hl, pyOr, hne]
  · intro c hl hne hlen
    have hc : dept_name_visit (some c) = c := by
      simp [dept_name_visit, dictGet, hl, pyOr, hne]
    have hu : dept_name_visit none = "未設定" := rfl
    rw [hc, hu]
    intro heq
    rw [heq] at hlen
    exact absurd hlen (by decide)

/-- C5 witness: the unmapped code 99 renders as itself and differs from
the missing-code sentinel. -/
theorem c5_witness :
    dept_name_visit (some "99") = "99" ∧
    dept_name_visit (some "99") ≠ dept_name_visit none :=
  ⟨c5_dept_lookup.2.2.1 "99" (by decide) (by decide),
   c5_dept_lookup.2.2.2.2.2 "99" (by decide) (by decide) (by decide)⟩

/-- C6: an 8-character birth date is shown as its first four characters,
the year mark, characters five and six, the month mark, characters seven
and eight, and the day mark; a null or empty birth date shows the fixed
unknown-birth-date sentinel. -/
theorem c6_birth_format :
    (∀ b : String, b.length = 8 →
      birth_date (some b) =
        b.take 4 ++ "年" ++ (b.drop 4).take 2 ++ "月" ++ (b.drop 6).take 2 ++ "日") ∧
    birth_date none = "生年月日不明" ∧
    birth_date (some "") = "生年月日不明" := by
  refine ⟨?_, rfl, by decide⟩
  intro b h
  have hne : b ≠ "" := ne_empty_of_length_pos (by omega)
  have hdrop : b.drop 0 = b := by
    rw [String.drop_eq]
    cases b
    simp
  simp [birth_date, hne, sqlSubstring, hdrop]

/-- C6 witness: the formatting equation at a concrete 8-digit date. -/
theorem c6_witness :
    birth_date (some "19800115") =
      "19800115".take 4 ++ "年" ++ ("19800115".drop 4).take 2 ++ "月" ++
        ("19800115".drop 6).take 2 ++ "日" :=
  c6_birth_format.1 "19800115" (by decide)

/-- Length bound of a Python truncate-with-ellipsis step: keeping `k`
characters plus the three-character marker under threshold `t` never
exceeds a column width at least `max t (k + 3)`. -/
theorem trunc_length_le (s : String) (t k w : Nat) (h1 : t ≤ w) (h2 : k + 3 ≤ w) :
    (if t < s.length then s.take k ++ "..." else s).length ≤ w := by
  split
  · have h3 : ("..." : String).length = 3 := rfl
    have hlen : (s.take k ++ "...").length = (s.take k).length + 3 := by
      rw [String.length_append, h3]
    have hk := string_length_take_le s k
    omega
  · rename_i h
    omega

/-- C7: a name or kana value over the display threshold is shown as its
15-character (listing) or 10-character (search) head plus the ellipsis
marker, a value at or under the threshold is shown unchanged, and every
displayed name, kana or phone cell fits inside its declared column
width. -/
theorem c7_truncation :
    (∀ s : String, 18 < s.length →
      truncate18 s = s.take 15 ++ "..." ∧ (truncate18 s).length ≤ 20) ∧
    (∀ s : String, s.length ≤ 18 → truncate18 s = s) ∧
    (∀ s : String, 13 < s.length →
      truncate13 s = s.take 10 ++ "..." ∧ (truncate13 s).length ≤ 15) ∧
    (∀ s : String, s.length ≤ 13 → truncate13 s = s) ∧
    ∀ raw : Option String,
      (list_display_name raw).length ≤ 20 ∧
      (list_display_kana raw).length ≤ 20 ∧
      (search_display_name raw).length ≤ 15 ∧
      (search_display_kana raw).length ≤ 15 ∧
      (search_display_phone raw).length ≤ 15 ∧
      (∀ fn : Option String, (visit_display_name raw fn).length ≤ 20) ∧
      (visit_display_kana raw).length ≤ 18 := by
  refine ⟨?_, ?_, ?_, ?_, ?_⟩
  · intro s h
    exact ⟨by rw [truncate18, if_pos h], trunc_length_le s 18 15 20 (by omega) (by omega)⟩
  · intro s h
    rw [truncate18, if_neg (by omega)]
  · intro s h
    exact ⟨by rw [truncate13, if_pos h], trunc_length_le s 13 10 15 (by omega) (by omega)⟩
  · intro s h
    rw [truncate13, if_neg (by omega)]
  · intro raw
    refine ⟨trunc_length_le _ 18 15 20 (by omega) (by omega),
      trunc_length_le _ 18 15 20 (by omega) (by omega),
      trunc_length_le _ 13 10 15 (by omega) (by omega),
      trunc_length_le _ 13 10 15 (by omega) (by omega),
      trunc_length_le _ 13 10 15 (by omega) (by omega),
      fun fn => trunc_length_le _ 18 15 20 (by omega) (by omega),
      trunc_length_le _ 16 13 18 (by omega) (by omega)⟩

/-- C7 witness: a 19-character name is truncated to 15 characters plus
the marker and fits the 20-wide column. -/
theorem c7_witness :
    truncate18 "0123456789012345678" = "0123456789012345678".take 15 ++ "..." ∧
    (truncate18 "0123456789012345678").length ≤ 20 :=
  c7_truncation.1 "0123456789012345678" (by decide)

/-- A string is not an element of a singleton list whose element starts
with a different character. -/
theorem notmem_singleton_of_head (c d : Char) {x y : String} (hx : x.data.head? = some c)
    (hy : y.data.head? = some d) (hcd : c ≠ d) : x ∉ [y] := by
  simp only [List.mem_singleton]
  exact ne_of_head_char hx hy hcd

/-- An append whose left part is a nonempty literal followed by anything
is a nonempty string. -/
theorem data_append_ne_nil (a b : String) (ha : a.data ≠ []) : (a ++ b).data ≠ [] := by
  rw [String.data_append]
  cases hd : a.data with
  | nil => exact absurd hd ha
  | cons x xs => simp

/-- The no-match message of search_patients starts with the opening
Japanese bracket, whatever the search term is. -/
theorem search_msg_head (term : String) :
    ("「" ++ term ++ "」に一致する患者が見つかりませんでした。").data.head? = some '「' := by
  rw [head_append_left _ _ (data_append_ne_nil "「" term (by decide)),
    head_append_left "「" term (by decide)]
  decide

/-- The no-visitors message of show_todays_visits starts with the first
character of the Japanese word for today, whatever the date string is. -/
theorem visits_msg_head (today : String) :
    ("本日（" ++ today_jp today ++ "）の来院患者はいません。").data.head? = some '本' := by
  rw [head_append_left _ _ (data_append_ne_nil "本日（" (today_jp today) (by decide)),
    head_append_left "本日（" (today_jp today) (by decide)]
  decide

/-- C8: each of the three reporting routines answers an empty query
result with exactly its explicit no-data message and prints none of its
table header lines; in particular a search for Sato with no matching
rows prints exactly the no-match message naming Sato, no table. -/
theorem c8_empty_results :
    list_patients_output [] = ["患者データが見つかりませんでした。"] ∧
    (∀ s ∈ patients_table_header, s ∉ list_patients_output []) ∧
    (∀ term : String, search_patients_output term [] =
      ["「" ++ term ++ "」に一致する患者が見つかりませんでした。"]) ∧
    (∀ term : String, ∀ s ∈ search_table_header, s ∉ search_patients_output term []) ∧
    (∀ today : String, todays_visits_output today [] =
      ["本日（" ++ today_jp today ++ "）の来院患者はいません。"]) ∧
    (∀ today : String, ∀ s ∈ visits_table_header, s ∉ todays_visits_output today []) ∧
    search_patients_output "Sato" [] = ["「Sato」に一致する患者が見つかりませんでした。"] := by
  refine ⟨rfl, by decide, fun term => rfl, ?_, fun today => rfl, ?_, by decide⟩
  · intro term s hs
    have hm := search_msg_head term
    show s ∉ ["「" ++ term ++ "」に一致する患者が見つかりませんでした。"]
    simp only [search_table_header, List.mem_cons, List.not_mem_nil, or_false] at hs
    rcases hs with h | h | h <;> subst h
    · exact notmem_singleton_of_head '=' '「' (by decide) hm (by decide)
    · exact notmem_singleton_of_head ' ' '「' (by decide) hm (by decide)
    · exact notmem_singleton_of_head '=' '「' (by decide) hm (by decide)
  · intro today s hs
    have hm := visits_msg_head today
    show s ∉ ["本日（" ++ today_jp today ++ "）の来院患者はいません。"]
    simp only [visits_table_header, List.mem_cons, List.not_mem_nil, or_false] at hs
    rcases hs with h | h | h <;> subst h
    · exact notmem_singleton_of_head '=' '本' (by decide) hm (by decide)
    · exact notmem_singleton_of_head ' ' '本' (by decide) hm (by decide)
    · exact notmem_singleton_of_head '=' '本' (by decide) hm (by decide)

/-- C10: a visit row with a null or empty department code shows the
unset sentinel in the per-visit table but the distinct unknown sentinel
in the department breakdown of the same report. -/
theorem c10_missing_dept_sentinels :
    dept_name_visit none = "未設定" ∧
    dept_name_visit (some "") = "未設定" ∧
    dept_name_stats none = "不明" ∧
    dept_name_stats (some "") = "不明" ∧
    dept_name_visit none ≠ dept_name_stats none ∧
    ∀ n : Nat, dept_stats_output [(none, n)] = ["不明: " ++ toString n ++ "名"] :=
  ⟨rfl, by decide, rfl, by decide, by decide, fun n => rfl⟩

/-- C8 witness: neither separator line of a table header appears in the
empty-result output of the listing or of the Sato search. -/
theorem c8_witness :
    eq80 ∉ list_patients_output [] ∧ eq100 ∉ search_patients_output "Sato" [] :=
  ⟨c8_empty_results.2.1 eq80 (by decide),
   c8_empty_results.2.2.2.1 "Sato" eq100 (by decide)⟩

/-- C10 witness: the department breakdown line for a null department code
with three visits shows the unknown sentinel. -/
theorem c10_witness :
    dept_stats_output [(none, 3)] = ["不明: " ++ toString 3 ++ "名"] :=
  c10_missing_dept_sentinels.2.2.2.2.2 3

end WebOrca
